import Mathlib

/-!
Verification development for the `pythonLLM` repository (Level 3 agent).

The Python sources embedded here (shallowly, as executable Lean functions):
  * `src/level3/full_agent.py`   — `TaskStep`, `FullAgent.analyze_query`,
    `extract_math_operations`, `extract_knowledge_questions`, `execute_step`,
    `create_prompt`, `call_openai`, `call_gemini`, `fallback_response`,
    `synthesize_results`, `process_query`, and the per-query part of `run`.
  * `src/level3/translator_tool.py` — `TranslatorTool.detect_translation_request`,
    `TranslatorTool.translate`, and the translation dictionary.
  * `src/level2/calculator_tool.py` — `CalculatorTool.calculate`.

Modelling conventions:
  * Python `float` operands are modelled as exact fractions (`PyFloat`).
    Every numeric value observed by the properties below is a small integer,
    where exact and IEEE-754 arithmetic agree.  Python's `str(float)` is
    modelled only for integral values (`n.0`), the only case the observed
    outputs exercise.
  * Python exceptions are modelled by the `PyExc` type; a `try/except` block
    becomes a `match` on an `Except PyExc _` value.  `str(e)` is `pyStrMsg`
    (messages follow CPython 3.11+).
  * Python `str.lower`, `str.strip`, `str.split`, and the `re` character
    classes `\s`, `\d`, `\w` are modelled over ASCII, which covers every
    query string considered.
  * The regular expressions of the source are embedded as `Pat` token lists
    (one constructor per regex fragment) and run by a matcher `mseq` that
    reproduces Python `re` semantics on these patterns: leftmost match,
    greedy quantifiers with maximal munch (each greedy class in these
    patterns is followed by a character outside the class, so no further
    backtracking can change the result), lazy `(.+?)` expanding shortest
    first, alternatives tried left to right, `$` matching end of input
    (no query ends in a newline).
-/

namespace PyLLM

set_option maxRecDepth 200000

/-! ### Python primitives (ASCII model) -/

deriving instance DecidableEq for Except

/-- Python exception values, as far as the embedded code can raise them. -/
inductive PyExc where
  /-- `UnboundLocalError` for reading local `name` before assignment. -/
  | unboundLocal (name : String)
  /-- `KeyError` for a missing dict key. -/
  | keyError (key : String)
  /-- `AttributeError`, e.g. `None.get(...)`. -/
  | attrError (msg : String)
  /-- any other exception, carrying its message. -/
  | other (msg : String)
deriving DecidableEq, Repr

/-- Python `str(e)` on an exception (CPython 3.11+ wording for
`UnboundLocalError`; `str(KeyError(k))` is the repr of the key). -/
def pyStrMsg : PyExc → String
  | .unboundLocal n =>
      "cannot access local variable '" ++ n ++
      "' where it is not associated with a value"
  | .keyError k => "'" ++ k ++ "'"
  | .attrError m => m
  | .other m => m

/-- Python `\s` on ASCII text. -/
def isSpaceCh (c : Char) : Bool :=
  c == ' ' || c == '\t' || c == '\n' || c == '\r'

/-- Python `\d` on ASCII text. -/
def isDigitCh (c : Char) : Bool := '0' ≤ c && c ≤ '9'

/-- Python `\w` on ASCII text. -/
def isWordCh (c : Char) : Bool := c.isAlphanum || c == '_'

/-- The regex class `['"]`. -/
def isQuoteCh (c : Char) : Bool := c == '\'' || c == '"'

/-- The regex class `.` (anything but a newline; `re.DOTALL` is not used). -/
def isDotCh (c : Char) : Bool := c != '\n'

/-- ASCII `str.lower` on one character. -/
def asciiLower (c : Char) : Char :=
  if 65 ≤ c.toNat ∧ c.toNat ≤ 90 then Char.ofNat (c.toNat + 32) else c

/-- ASCII `str.lower`. -/
def pyLower (s : String) : String := ⟨s.data.map asciiLower⟩

/-- ASCII `str.strip`. -/
def pyStrip (s : String) : String :=
  ⟨((s.data.dropWhile isSpaceCh).reverse.dropWhile isSpaceCh).reverse⟩

/-- One step of no-argument `str.split`: accumulate the current word. -/
def pySplitAux : List Char → List Char → List String
  | acc, [] => if acc.isEmpty then [] else [⟨acc.reverse⟩]
  | acc, c :: rest =>
      if isSpaceCh c then
        if acc.isEmpty then pySplitAux [] rest
        else (⟨acc.reverse⟩ : String) :: pySplitAux [] rest
      else pySplitAux (c :: acc) rest

/-- Python `str.split()` (no argument): whitespace runs, no empty fields. -/
def pySplit (s : String) : List String := pySplitAux [] s.data

/-- Python `float` values, modelled as exact (unreduced) fractions with a
positive denominator.  Every float the embedded code constructs starts as a
whole number parsed from a digit string; `+`, `-`, `*` keep the denominator
at `1`, and `/` is exact fraction division, so rational and IEEE-754
arithmetic agree on everything the properties below observe. -/
structure PyFloat where
  num : Int
  den : Nat
deriving DecidableEq, Repr

/-- Python `float("d+")` on a digit string. -/
def pyFloatOfDigits (s : String) : PyFloat :=
  ⟨(s.data.foldl (fun n c => n * 10 + (c.toNat - 48)) 0 : Nat), 1⟩

/-- Python float addition. -/
def pyAdd (a b : PyFloat) : PyFloat :=
  ⟨a.num * b.den + b.num * a.den, a.den * b.den⟩

/-- Python float subtraction. -/
def pySub (a b : PyFloat) : PyFloat :=
  ⟨a.num * b.den - b.num * a.den, a.den * b.den⟩

/-- Python float multiplication. -/
def pyMul (a b : PyFloat) : PyFloat := ⟨a.num * b.num, a.den * b.den⟩

/-- Python float division (callers test for a zero divisor first). -/
def pyDiv (a b : PyFloat) : PyFloat :=
  if 0 ≤ b.num then ⟨a.num * b.den, a.den * b.num.natAbs⟩
  else ⟨-(a.num * b.den), a.den * b.num.natAbs⟩

/-- The comparison `operand2 == 0` on a Python float. -/
def pyIsZero (a : PyFloat) : Bool := a.num == 0

/-- Python `str` of a float, modelled for integral values (`n.0`); no
non-integral float is ever rendered by the properties proved below. -/
def pyFloatRepr (q : PyFloat) : String :=
  if q.den ≠ 0 ∧ q.num % (q.den : Int) = 0 then
    let i := q.num / (q.den : Int)
    (if i < 0 then "-" ++ Nat.repr i.natAbs else Nat.repr i.natAbs) ++ ".0"
  else "<float>"

/-! ### The regex fragments used by the source, as a token language -/

/-- One token of the source's regular expressions.  Each constructor is the
embedding of one regex fragment (noted in its doc string). -/
inductive Pat where
  /-- a literal run of characters (the source patterns are lower-case). -/
  | lit (s : String)
  /-- `\s+` -/
  | ws1
  /-- `\s*` -/
  | ws0
  /-- `['"]` -/
  | quote
  /-- `(\d+)` -/
  | capDigits
  /-- `([^'"]+)` -/
  | capNotQuote
  /-- `(\w+)` -/
  | capWord
  /-- `(.+?)` -/
  | capLazyDot
  /-- `(?:the\s+)?` (only optional group occurring in the source). -/
  | optThe
  /-- `(?:\s+and\s+|\s+then\s+|$)` (the delimiter closing the knowledge
  patterns; alternatives tried in this order, `$` is end of input). -/
  | endDelim
deriving DecidableEq, Repr

/-- Strip an exact character run off the input. -/
def stripPre : List Char → List Char → Option (List Char)
  | [], inp => some inp
  | _ :: _, [] => none
  | c :: cs, d :: ds => if c == d then stripPre cs ds else none

/-- Lazy `(.+?)`: hand progressively longer non-empty chunks of dot-class
characters to the continuation `k`, shortest first (Python's lazy order);
the first success wins, the chunk is recorded as the capture. -/
def dotScan (k : List Char → Option (List Char × List String)) :
    List Char → List Char → Option (List Char × List String)
  | _, [] => none
  | acc, c :: rest =>
      if isDotCh c then
        match k rest with
        | some (r, caps) => some (r, (⟨(c :: acc).reverse⟩ : String) :: caps)
        | none => dotScan k (c :: acc) rest
      else none

/-- Match a token list against a prefix of the input, returning the input
remaining after the match and the captures in order.  `fuel` bounds the
recursion depth; one unit is spent per token, so `ps.length + 1` always
suffices (see `searchCore`). -/
def mseq : Nat → List Pat → List Char → Option (List Char × List String)
  | 0, _, _ => none
  | _ + 1, [], inp => some (inp, [])
  | fuel + 1, p :: ps, inp =>
    match p with
    | .lit s => match stripPre s.data inp with
        | some inp2 => mseq fuel ps inp2
        | none => none
    | .ws1 =>
        let run := inp.takeWhile isSpaceCh
        if run.isEmpty then none else mseq fuel ps (inp.drop run.length)
    | .ws0 => mseq fuel ps (inp.drop (inp.takeWhile isSpaceCh).length)
    | .quote => match inp with
        | c :: rest => if isQuoteCh c then mseq fuel ps rest else none
        | [] => none
    | .capDigits =>
        let run := inp.takeWhile isDigitCh
        if run.isEmpty then none else
          match mseq fuel ps (inp.drop run.length) with
          | some (r, caps) => some (r, (⟨run⟩ : String) :: caps)
          | none => none
    | .capNotQuote =>
        let run := inp.takeWhile (fun c => !isQuoteCh c)
        if run.isEmpty then none else
          match mseq fuel ps (inp.drop run.length) with
          | some (r, caps) => some (r, (⟨run⟩ : String) :: caps)
          | none => none
    | .capWord =>
        let run := inp.takeWhile isWordCh
        if run.isEmpty then none else
          match mseq fuel ps (inp.drop run.length) with
          | some (r, caps) => some (r, (⟨run⟩ : String) :: caps)
          | none => none
    | .capLazyDot => dotScan (fun i => mseq fuel ps i) [] inp
    | .optThe =>
        -- greedy optional: prefer taking "the\s+", fall back to skipping it
        match stripPre "the".data inp with
        | some inp2 =>
            let run := inp2.takeWhile isSpaceCh
            if run.isEmpty then mseq fuel ps inp
            else match mseq fuel ps (inp2.drop run.length) with
              | some r => some r
              | none => mseq fuel ps inp
        | none => mseq fuel ps inp
    | .endDelim =>
        -- first alternative: \s+and\s+
        let tryConn : String → Option (List Char × List String) := fun w =>
          let run := inp.takeWhile isSpaceCh
          if run.isEmpty then none else
            match stripPre w.data (inp.drop run.length) with
            | some inp2 =>
                let run2 := inp2.takeWhile isSpaceCh
                if run2.isEmpty then none
                else mseq fuel ps (inp2.drop run2.length)
            | none => none
        match tryConn "and" with
        | some r => some r
        | none =>
          match tryConn "then" with
          | some r => some r
          | none => if inp.isEmpty then mseq fuel ps inp else none

/-- `re.search` body: try the pattern at each start position, leftmost
first; on success return the input remaining after the match together with
the captures. -/
def searchCore (ps : List Pat) : List Char → Option (List Char × List String)
  | [] => mseq (ps.length + 1) ps []
  | c :: rest =>
    match mseq (ps.length + 1) ps (c :: rest) with
    | some r => some r
    | none => searchCore ps rest

/-- `re.finditer`, collecting the capture lists of successive
non-overlapping matches.  The iteration count is bounded by the input
length; every pattern of the source consumes at least one character per
match, so the bound is never hit early. -/
def findAllAux (ps : List Pat) : Nat → List Char → List (List String)
  | 0, _ => []
  | fuel + 1, inp =>
    match searchCore ps inp with
    | none => []
    | some (rest, caps) => caps :: findAllAux ps fuel rest

/-- All capture lists of `re.finditer(pattern, s)`. -/
def findAll (ps : List Pat) (s : String) : List (List String) :=
  findAllAux ps (s.data.length + 1) s.data

/-! ### `src/level3/translator_tool.py` — `TranslatorTool` -/

/-- `TranslatorTool.translation_dict` (`src/level3/translator_tool.py`,
lines 15–85), verbatim. -/
def translation_dict : List (String × String) :=
  [("good morning", "Guten Morgen"),
   ("good afternoon", "Guten Tag"),
   ("good evening", "Guten Abend"),
   ("good night", "Gute Nacht"),
   ("hello", "Hallo"),
   ("hi", "Hallo"),
   ("goodbye", "Auf Wiedersehen"),
   ("thank you", "Danke"),
   ("please", "Bitte"),
   ("yes", "Ja"),
   ("no", "Nein"),
   ("sunshine", "Sonnenschein"),
   ("have a nice day", "Einen schönen Tag noch"),
   ("how are you", "Wie geht es dir"),
   ("i am fine", "Mir geht es gut"),
   ("welcome", "Willkommen"),
   ("excuse me", "Entschuldigung"),
   ("sorry", "Entschuldigung"),
   ("water", "Wasser"),
   ("bread", "Brot"),
   ("house", "Haus"),
   ("car", "Auto"),
   ("book", "Buch"),
   ("friend", "Freund"),
   ("family", "Familie"),
   ("work", "Arbeit"),
   ("school", "Schule"),
   ("time", "Zeit"),
   ("day", "Tag"),
   ("night", "Nacht"),
   ("morning", "Morgen"),
   ("afternoon", "Nachmittag"),
   ("evening", "Abend"),
   ("week", "Woche"),
   ("month", "Monat"),
   ("year", "Jahr"),
   ("today", "Heute"),
   ("tomorrow", "Morgen"),
   ("yesterday", "Gestern"),
   ("big", "Groß"),
   ("small", "Klein"),
   ("good", "Gut"),
   ("bad", "Schlecht"),
   ("beautiful", "Schön"),
   ("ugly", "Hässlich"),
   ("hot", "Heiß"),
   ("cold", "Kalt"),
   ("new", "Neu"),
   ("old", "Alt"),
   ("young", "Jung"),
   ("happy", "Glücklich"),
   ("sad", "Traurig"),
   ("angry", "Wütend"),
   ("tired", "Müde"),
   ("hungry", "Hungrig"),
   ("thirsty", "Durstig"),
   ("love", "Liebe"),
   ("hate", "Hass"),
   ("like", "Gefallen"),
   ("want", "Wollen"),
   ("need", "Brauchen"),
   ("can", "Können"),
   ("must", "Müssen"),
   ("should", "Sollten"),
   ("will", "Werden"),
   ("would", "Würden"),
   ("could", "Könnten"),
   ("may", "Dürfen"),
   ("might", "Könnten")]

/-- Python `key in dict` / `dict[key]` over the translation table. -/
def dictLookup (key : String) : Option String := translation_dict.lookup key

/-- The result dict returned by the translation-request detector
(`src/level3/translator_tool.py`, lines 104–109). -/
structure TranslationRequest where
  english_text : String
  target_language : String
  original_text : String
deriving DecidableEq, Repr

/-- The six patterns of `TranslatorTool.detect_translation_request`
(`src/level3/translator_tool.py`, lines 92–99), in source order. -/
def translationPatterns : List (List Pat) :=
  [ -- r"translate\s+['"]([^'"]+)['"]\s+into\s+german"
    [.lit "translate", .ws1, .quote, .capNotQuote, .quote, .ws1,
     .lit "into", .ws1, .lit "german"],
    -- r"translate\s+['"]([^'"]+)['"]\s+to\s+german"
    [.lit "translate", .ws1, .quote, .capNotQuote, .quote, .ws1,
     .lit "to", .ws1, .lit "german"],
    -- r"['"]([^'"]+)['"]\s+in\s+german"
    [.quote, .capNotQuote, .quote, .ws1, .lit "in", .ws1, .lit "german"],
    -- r"how\s+do\s+you\s+say\s+['"]([^'"]+)['"]\s+in\s+german"
    [.lit "how", .ws1, .lit "do", .ws1, .lit "you", .ws1, .lit "say", .ws1,
     .quote, .capNotQuote, .quote, .ws1, .lit "in", .ws1, .lit "german"],
    -- r"german\s+for\s+['"]([^'"]+)['"]"
    [.lit "german", .ws1, .lit "for", .ws1, .quote, .capNotQuote, .quote],
    -- r"what\s+is\s+['"]([^'"]+)['"]\s+in\s+german"
    [.lit "what", .ws1, .lit "is", .ws1, .quote, .capNotQuote, .quote, .ws1,
     .lit "in", .ws1, .lit "german"] ]

/-- Loop of `detect_translation_request`: `re.search` each pattern over the
lower-cased text, first hit wins, returning `group(1).strip()`. -/
def detectTransAux (lowered : String) : List (List Pat) → Option String
  | [] => none
  | ps :: rest =>
    match searchCore ps lowered.data with
    | some (_, cap :: _) => some (pyStrip cap)
    | _ => detectTransAux lowered rest

/-- `TranslatorTool.detect_translation_request`
(`src/level3/translator_tool.py`, lines 87–111).  Both the pattern search
and the captured group run over `text.lower()`. -/
def detect_translation_request (text : String) : Option TranslationRequest :=
  match detectTransAux (pyLower text) translationPatterns with
  | some english_text =>
      some { english_text := english_text,
             target_language := "german",
             original_text := text }
  | none => none

/-- The result dict of `TranslatorTool.translate` (a Python dict whose keys
vary by branch; absent keys are `none`). -/
structure TranslateResult where
  success : Bool
  english_text : String
  german_translation : Option String := none
  confidence : Option String := none
  note : Option String := none
  error : Option String := none
  suggestion : Option String := none
deriving DecidableEq, Repr

/-- `TranslatorTool.translate` (`src/level3/translator_tool.py`, lines
113–162).  The surrounding `try/except` is dead in this model: no
expression of the body can raise. -/
def translate (english_text : String) : TranslateResult :=
  let english_lower := pyStrip (pyLower english_text)
  match dictLookup english_lower with
  | some german_translation =>
      { success := true, english_text := english_text,
        german_translation := some german_translation,
        confidence := some "high" }
  | none =>
      let words := pySplit english_lower
      let translated_words := words.map fun word =>
        match dictLookup word with
        | some g => g
        | none => "[" ++ word ++ "]"
      if !translated_words.isEmpty then
        { success := true, english_text := english_text,
          german_translation := some (String.intercalate " " translated_words),
          confidence := some "partial",
          note := some "Some words may not be accurately translated" }
      else
        { success := false, english_text := english_text,
          error := some "Translation not available for this text",
          suggestion := some "Try a simpler phrase or common words" }


/-! ### `src/level2/calculator_tool.py` — `CalculatorTool.calculate` -/

/-- The result dict of `CalculatorTool.calculate` (keys absent in a given
branch are `none`). -/
structure CalcResult where
  success : Bool
  result : Option PyFloat := none
  operation : Option String := none
  operand1 : PyFloat
  operand2 : PyFloat
  expression : Option String := none
  error : Option String := none
deriving DecidableEq, Repr

/-- Reading a Python local that may not have been assigned yet:
`UnboundLocalError` when it is unbound. -/
def readLocal (v : Option String) (name : String) : Except PyExc String :=
  match v with
  | some s => Except.ok s
  | none => Except.error (PyExc.unboundLocal name)

/-- The success dict built after the operator dispatch
(`src/level2/calculator_tool.py`, lines 113–120), shared by all four
arithmetic branches. -/
def calcSuccess (result : PyFloat) (operation_name operation : String)
    (operand1 operand2 : PyFloat) : CalcResult :=
  { success := true, result := some result, operation := some operation_name,
    operand1 := operand1, operand2 := operand2,
    expression := some (pyFloatRepr operand1 ++ " " ++ operation ++ " " ++
      pyFloatRepr operand2 ++ " = " ++ pyFloatRepr result) }

/-- The `try` body of `CalculatorTool.calculate`
(`src/level2/calculator_tool.py`, lines 84–120).  The local
`operation_name` is unassigned on entry; on the `/`-with-zero path the
early-return dict (lines 95–101) reads it before any assignment, which
raises `UnboundLocalError`. -/
def calcTry (operation : String) (operand1 operand2 : PyFloat) :
    Except PyExc CalcResult :=
  let operation_name : Option String := none
  if operation = "+" then
    Except.ok (calcSuccess (pyAdd operand1 operand2) "addition" operation
      operand1 operand2)
  else if operation = "-" then
    Except.ok (calcSuccess (pySub operand1 operand2) "subtraction" operation
      operand1 operand2)
  else if operation = "*" then
    Except.ok (calcSuccess (pyMul operand1 operand2) "multiplication" operation
      operand1 operand2)
  else if operation = "/" then
    if pyIsZero operand2 then do
      let opName ← readLocal operation_name "operation_name"
      Except.ok { success := false,
                  error := some "Division by zero is not allowed",
                  operation := some opName,
                  operand1 := operand1, operand2 := operand2 }
    else
      Except.ok (calcSuccess (pyDiv operand1 operand2) "division" operation
        operand1 operand2)
  else
    Except.ok { success := false,
                error := some ("Unsupported operation: " ++ operation),
                operation := some operation,
                operand1 := operand1, operand2 := operand2 }

/-- `CalculatorTool.calculate` (`src/level2/calculator_tool.py`, lines
81–129): the `try` body above wrapped in the generic `except Exception`
handler (lines 122–129). -/
def calculate (operation : String) (operand1 operand2 : PyFloat) :
    CalcResult :=
  match calcTry operation operand1 operand2 with
  | Except.ok r => r
  | Except.error e =>
      { success := false, error := some (pyStrMsg e),
        operation := some operation,
        operand1 := operand1, operand2 := operand2 }

/-! ### `src/level3/full_agent.py` — the Level 3 agent -/

/-- One math-operation dict produced by `extract_math_operations`
(`src/level3/full_agent.py`, lines 138–143 and 149–154). -/
structure MathOp where
  operation : String
  operand1 : PyFloat
  operand2 : PyFloat
  expression : String
deriving DecidableEq, Repr

/-- A per-step result (`step.result`): the dict returned by the calculator,
the translator, or the `{"response": ...}` wrapper of the LLM path. -/
inductive StepResult where
  | calc (r : CalcResult)
  | transl (r : TranslateResult)
  | llm (response : String)
deriving DecidableEq, Repr

/-- `step.parameters`: a Python dict; only the keys a capability needs are
set, the rest are `none` (reading an absent key is a `KeyError`). -/
structure Params where
  operation : Option String := none
  operand1 : Option PyFloat := none
  operand2 : Option PyFloat := none
  expression : Option String := none
  english_text : Option String := none
  question : Option String := none
deriving DecidableEq, Repr

/-- `TaskStep` (`src/level3/full_agent.py`, lines 33–42). -/
structure TaskStep where
  description : String
  tool_type : Option String := none
  parameters : Params := {}
  result : Option StepResult := none
  completed : Bool := false
  error : Option String := none
deriving DecidableEq, Repr

/-- `add_patterns` of `extract_math_operations`
(`src/level3/full_agent.py`, lines 122–126). -/
def add_patterns : List (List Pat) :=
  [ [.lit "add", .ws1, .capDigits, .ws1, .lit "and", .ws1, .capDigits],
    [.capDigits, .ws0, .lit "+", .ws0, .capDigits],
    [.capDigits, .ws1, .lit "plus", .ws1, .capDigits] ]

/-- `multiply_patterns` of `extract_math_operations`
(`src/level3/full_agent.py`, lines 128–132). -/
def multiply_patterns : List (List Pat) :=
  [ [.lit "multiply", .ws1, .capDigits, .ws1, .lit "and", .ws1, .capDigits],
    [.capDigits, .ws0, .lit "*", .ws0, .capDigits],
    [.capDigits, .ws1, .lit "times", .ws1, .capDigits] ]

/-- Build the operation dict from one match of an arithmetic pattern: the
operator symbol, both operands as floats, and the displayed expression
(`" + "` for additions, `" × "` for multiplications). -/
def mkMathOp (symbol shown : String) : List String → Option MathOp
  | [g1, g2] =>
      some { operation := symbol,
             operand1 := pyFloatOfDigits g1, operand2 := pyFloatOfDigits g2,
             expression := g1 ++ shown ++ g2 }
  | _ => none

/-- `FullAgent.extract_math_operations` (`src/level3/full_agent.py`, lines
117–156): all `finditer` matches of the addition patterns over
`text.lower()`, then all matches of the multiplication patterns. -/
def extract_math_operations (text : String) : List MathOp :=
  let lowered := pyLower text
  (add_patterns.flatMap fun ps =>
    (findAll ps lowered).filterMap (mkMathOp "+" " + ")) ++
  (multiply_patterns.flatMap fun ps =>
    (findAll ps lowered).filterMap (mkMathOp "*" " × "))

/-- The knowledge-question patterns (`src/level3/full_agent.py`, lines
163–169), in source order. -/
def knowledgePatterns : List (List Pat) :=
  [ -- r"tell\s+me\s+(.+?)(?:\s+and\s+|\s+then\s+|$)"
    [.lit "tell", .ws1, .lit "me", .ws1, .capLazyDot, .endDelim],
    -- r"what\s+is\s+(?:the\s+)?(.+?)(?:\s+and\s+|\s+then\s+|$)"
    [.lit "what", .ws1, .lit "is", .ws1, .optThe, .capLazyDot, .endDelim],
    -- r"which\s+(.+?)(?:\s+and\s+|\s+then\s+|$)"
    [.lit "which", .ws1, .capLazyDot, .endDelim],
    -- r"capital\s+of\s+(\w+)"
    [.lit "capital", .ws1, .lit "of", .ws1, .capWord],
    -- r"distance\s+between\s+(.+?)(?:\s+and\s+|\s+then\s+|$)"
    [.lit "distance", .ws1, .lit "between", .ws1, .capLazyDot, .endDelim] ]

/-- `FullAgent.extract_knowledge_questions` (`src/level3/full_agent.py`,
lines 158–178): for every pattern, every `finditer` match over
`text.lower()` contributes `group(1).strip()`, kept when non-empty and
longer than 3 characters. -/
def extract_knowledge_questions (text : String) : List String :=
  let lowered := pyLower text
  knowledgePatterns.flatMap fun ps =>
    (findAll ps lowered).filterMap fun caps =>
      match caps.head? with
      | some g =>
          let question := pyStrip g
          if question ≠ "" ∧ question.length > 3 then some question else none
      | none => none

/-- The steps contributed by the translation pass of `analyze_query`
(`src/level3/full_agent.py`, lines 80–87). -/
def transSteps (user_query : String) : List TaskStep :=
  match detect_translation_request user_query with
  | some tr =>
      [{ description := "Translate '" ++ tr.english_text ++ "' to German",
         tool_type := some "translator",
         parameters := { english_text := some tr.english_text } }]
  | none => []

/-- The steps contributed by the arithmetic pass of `analyze_query`
(`src/level3/full_agent.py`, lines 89–96); the whole operation dict becomes
the step's parameters. -/
def mathSteps (user_query : String) : List TaskStep :=
  (extract_math_operations user_query).map fun m =>
    { description := "Calculate " ++ m.expression,
      tool_type := some "calculator",
      parameters := { operation := some m.operation,
                      operand1 := some m.operand1,
                      operand2 := some m.operand2,
                      expression := some m.expression } }

/-- The steps contributed by the knowledge-question pass of `analyze_query`
(`src/level3/full_agent.py`, lines 98–105). -/
def knowSteps (user_query : String) : List TaskStep :=
  (extract_knowledge_questions user_query).map fun question =>
    { description := "Answer: " ++ question,
      tool_type := some "llm",
      parameters := { question := some question } }

/-- `FullAgent.analyze_query` (`src/level3/full_agent.py`, lines 75–115):
translation pass, then arithmetic pass, then knowledge pass, concatenated
in that order; when all three produce nothing, one fallback `llm` step
whose parameter is the whole original query. -/
def analyze_query (user_query : String) : List TaskStep :=
  let steps := transSteps user_query ++ mathSteps user_query ++
    knowSteps user_query
  if steps.isEmpty then
    [{ description := "Process query: " ++ user_query,
       tool_type := some "llm",
       parameters := { question := some user_query } }]
  else steps

/-- The LLM collaborators: an OpenAI or Gemini client whose raw invocation
may raise (modelled as a function into `Except`), or the keyless fallback
mode (`self.llm_type` of `setup_llm`). -/
inductive Backend where
  | openaiB (call : String → Except PyExc String)
  | geminiB (call : String → Except PyExc String)
  | fallbackB

/-- `FullAgent.create_prompt` (`src/level3/full_agent.py`, lines 222–233). -/
def create_prompt (question : String) : String :=
  "You are a helpful AI assistant that ALWAYS thinks step-by-step and provides structured, clear responses.\n\nIMPORTANT RULES:\n1. ALWAYS break down your response into clear, numbered steps\n2. Use bullet points and formatting to make your response easy to read\n3. Be thorough but concise in your explanations\n\nUser Question: " ++
    question ++ "\n\nPlease provide your step-by-step response:"

/-- `FullAgent.call_openai` (`src/level3/full_agent.py`, lines 235–249):
the client call wrapped in `try/except`; an exception becomes the returned
*string* `"Error calling OpenAI API: ..."`. -/
def call_openai (call : String → Except PyExc String) (prompt : String) :
    String :=
  match call prompt with
  | Except.ok response => response
  | Except.error e => "Error calling OpenAI API: " ++ pyStrMsg e

/-- `FullAgent.call_gemini` (`src/level3/full_agent.py`, lines 251–257). -/
def call_gemini (call : String → Except PyExc String) (prompt : String) :
    String :=
  match call prompt with
  | Except.ok response => response
  | Except.error e => "Error calling Gemini API: " ++ pyStrMsg e

/-- Python substring test `sub in s`. -/
def listContainsSub (sub : List Char) : List Char → Bool
  | [] => sub.isEmpty
  | c :: rest => (stripPre sub (c :: rest)).isSome || listContainsSub sub rest

/-- Python `sub in s` on strings. -/
def pyContains (s sub : String) : Bool := listContainsSub sub.data s.data

/-- `FullAgent.fallback_response` (`src/level3/full_agent.py`, lines
259–289), with the three response texts verbatim. -/
def fallback_response (question : String) : String :=
  let question_lower := pyLower question
  if pyContains question_lower "capital" && pyContains question_lower "italy"
  then
    "Step-by-step answer about Italy's capital:\n\n1. **Question Analysis**: You're asking about the capital of Italy\n2. **Geographic Knowledge**: Italy is a country in Southern Europe\n3. **Capital City**: The capital of Italy is Rome\n4. **Historical Significance**: Rome has been Italy's capital since 1871\n5. **Cultural Importance**: Rome is known as the \"Eternal City\" and is famous for its ancient history, art, and architecture"
  else if pyContains question_lower "distance" &&
      pyContains question_lower "earth" && pyContains question_lower "mars"
  then
    "Step-by-step answer about Earth-Mars distance:\n\n1. **Question Analysis**: You're asking about the distance between Earth and Mars\n2. **Orbital Dynamics**: Both planets orbit the sun at different speeds and distances\n3. **Variable Distance**: The distance varies due to their elliptical orbits\n4. **Range**: The distance ranges from about 54.6 million km (closest) to 401 million km (farthest)\n5. **Average Distance**: On average, Earth and Mars are about 225 million km apart\n6. **Current Context**: The exact distance depends on the current positions in their orbits"
  else
    "Step-by-step response to: " ++ question ++
      "\n\n1. **Question Analysis**: I understand your question about " ++
      question ++
      "\n2. **Knowledge Application**: I would need to access current information\n3. **Structured Response**: I would provide a clear, step-by-step answer\n4. **Formatting**: I would use bullet points and clear structure\n5. **Note**: In fallback mode, I have limited knowledge. For best results, configure an API key."

/-- Python dict access `step.parameters[key]`: `KeyError` when absent. -/
def getKey {α : Type} (v : Option α) (key : String) : Except PyExc α :=
  match v with
  | some x => Except.ok x
  | none => Except.error (PyExc.keyError key)

/-- The `try` body of `FullAgent.execute_step`
(`src/level3/full_agent.py`, lines 182–215): dispatch on `tool_type`; each
tool path stores its result and marks the step completed; an unknown tool
records the error and leaves the step not completed. -/
def execute_step_try (b : Backend) (step : TaskStep) :
    Except PyExc TaskStep := do
  if step.tool_type = some "calculator" then
    let operation ← getKey step.parameters.operation "operation"
    let operand1 ← getKey step.parameters.operand1 "operand1"
    let operand2 ← getKey step.parameters.operand2 "operand2"
    let result := calculate operation operand1 operand2
    pure { step with result := some (.calc result), completed := true }
  else if step.tool_type = some "translator" then
    let english_text ← getKey step.parameters.english_text "english_text"
    pure { step with result := some (.transl (translate english_text)),
                     completed := true }
  else if step.tool_type = some "llm" then
    let question ← getKey step.parameters.question "question"
    let prompt := create_prompt question
    let response :=
      match b with
      | .openaiB call => call_openai call prompt
      | .geminiB call => call_gemini call prompt
      | .fallbackB => fallback_response question
    pure { step with result := some (.llm response), completed := true }
  else
    pure { step with error := some "Unknown tool type", completed := false }

/-- `FullAgent.execute_step` (`src/level3/full_agent.py`, lines 180–220):
the dispatch above under `except Exception`, which records `str(e)` and
marks the step not completed.  It never raises outward. -/
def execute_step (b : Backend) (step : TaskStep) : TaskStep :=
  match execute_step_try b step with
  | Except.ok s => s
  | Except.error e =>
      { step with error := some (pyStrMsg e), completed := false }

/-- `step.result.get('success')`: `AttributeError` on `None`; the LLM
result dict has no `success` key, so `.get` yields `None` (falsy). -/
def resGetSuccess : Option StepResult → Except PyExc Bool
  | none => Except.error
      (PyExc.attrError "'NoneType' object has no attribute 'get'")
  | some (.calc r) => Except.ok r.success
  | some (.transl r) => Except.ok r.success
  | some (.llm _) => Except.ok false

/-- `step.result['expression']` on a calculator result. -/
def calcResExpression : Option StepResult → Except PyExc String
  | some (.calc r) => getKey r.expression "expression"
  | some _ => Except.error (PyExc.keyError "expression")
  | none => Except.error
      (PyExc.other "'NoneType' object is not subscriptable")

/-- `step.result['result']` on a calculator result. -/
def calcResResult : Option StepResult → Except PyExc PyFloat
  | some (.calc r) => getKey r.result "result"
  | some _ => Except.error (PyExc.keyError "result")
  | none => Except.error
      (PyExc.other "'NoneType' object is not subscriptable")

/-- `step.result['english_text']` on a translator result. -/
def translResEnglish : Option StepResult → Except PyExc String
  | some (.transl r) => Except.ok r.english_text
  | some _ => Except.error (PyExc.keyError "english_text")
  | none => Except.error
      (PyExc.other "'NoneType' object is not subscriptable")

/-- `step.result['german_translation']` on a translator result. -/
def translResGerman : Option StepResult → Except PyExc String
  | some (.transl r) => getKey r.german_translation "german_translation"
  | some _ => Except.error (PyExc.keyError "german_translation")
  | none => Except.error
      (PyExc.other "'NoneType' object is not subscriptable")

/-- `step.result.get('response', d)`: the LLM response when present, the
default on the other dict shapes, `AttributeError` on `None`. -/
def resGetResponse (d : String) : Option StepResult → Except PyExc String
  | none => Except.error
      (PyExc.attrError "'NoneType' object has no attribute 'get'")
  | some (.llm response) => Except.ok response
  | some _ => Except.ok d

/-- Python `x or d` on an optional string (`None` and `""` are falsy). -/
def pyOrDefault (v : Option String) (d : String) : String :=
  match v with
  | some s => if s = "" then d else s
  | none => d

/-- `f"{step.error}"`: `None` prints as `"None"`. -/
def errNoneStr : Option String → String
  | some e => e
  | none => "None"

/-- The single-step branch of `synthesize_results`
(`src/level3/full_agent.py`, lines 293–316). -/
def synthesizeSingle (step : TaskStep) : Except PyExc String := do
  let calcOk ← (if step.tool_type = some "calculator" then
    resGetSuccess step.result else pure false)
  if calcOk then do
    let expression ← calcResExpression step.result
    let result ← calcResResult step.result
    pure ("Step-by-step response:\n\n1. **Question Analysis**: You asked for a mathematical calculation\n2. **Tool Usage**: I used the calculator tool\n3. **Calculation**: " ++
      expression ++ "\n4. **Result**: The answer is " ++ pyFloatRepr result)
  else do
    let translOk ← (if step.tool_type = some "translator" then
      resGetSuccess step.result else pure false)
    if translOk then do
      let english ← translResEnglish step.result
      let german ← translResGerman step.result
      pure ("Step-by-step response:\n\n1. **Question Analysis**: You asked for a translation\n2. **Tool Usage**: I used the translator tool\n3. **Translation**: '" ++
        english ++ "' → '" ++ german ++
        "'\n4. **Result**: The German translation is '" ++ german ++ "'")
    else if step.tool_type = some "llm" then
      resGetResponse "No response available" step.result
    else
      pure ("Error in processing: " ++ pyOrDefault step.error "Unknown error")

/-- One iteration of the multi-step loop of `synthesize_results`
(`src/level3/full_agent.py`, lines 322–333): the numbered description line,
then a result line for a completed step the loop knows how to render (a
completed calculator/translator step whose dict says `success: False` gets
*no* result line), or an error line for a non-completed step. -/
def synthesizeEntry (i : Nat) (step : TaskStep) :
    Except PyExc (List String) := do
  let head := "\n" ++ Nat.repr i ++ ". **" ++ step.description ++ "**"
  if step.completed then do
    let calcOk ← (if step.tool_type = some "calculator" then
      resGetSuccess step.result else pure false)
    if calcOk then do
      let expression ← calcResExpression step.result
      pure [head, "   Result: " ++ expression]
    else do
      let translOk ← (if step.tool_type = some "translator" then
        resGetSuccess step.result else pure false)
      if translOk then do
        let german ← translResGerman step.result
        pure [head, "   Result: '" ++ german ++ "'"]
      else if step.tool_type = some "llm" then do
        let response ← resGetResponse "No response" step.result
        pure [head, "   Result: " ++ response]
      else
        pure [head]
  else
    pure [head, "   Error: " ++ errNoneStr step.error]

/-- The `enumerate(steps, 1)` loop of the multi-step branch. -/
def synthesizeEntries (i : Nat) : List TaskStep → Except PyExc (List String)
  | [] => pure []
  | step :: rest => do
      let e ← synthesizeEntry i step
      let r ← synthesizeEntries (i + 1) rest
      pure (e ++ r)

/-- `FullAgent.synthesize_results` (`src/level3/full_agent.py`, lines
291–337): the single-step rendering for exactly one step, otherwise the
numbered multi-task rendering with the trailing
`Successfully completed k out of n tasks.` summary, where `k` counts the
steps with `completed` set. -/
def synthesize_results (steps : List TaskStep) (original_query : String) :
    Except PyExc String :=
  match steps with
  | [step] => synthesizeSingle step
  | _ => do
      let entries ← synthesizeEntries 1 steps
      let completedCount := (steps.filter (·.completed)).length
      let parts := "Step-by-step multi-task response:" :: entries ++
        ["\n**Summary**: Successfully completed " ++
          Nat.repr completedCount ++ " out of " ++
          Nat.repr steps.length ++ " tasks."]
      pure (String.intercalate "\n" parts)

/-- The step-execution loop of `process_query`
(`src/level3/full_agent.py`, lines 351–357): steps are executed strictly in
list order; `execute_step` never raises, so the loop always reaches every
step. -/
def executeLoop (b : Backend) : List TaskStep → List TaskStep
  | [] => []
  | step :: rest => execute_step b step :: executeLoop b rest

/-- `FullAgent.process_query` (`src/level3/full_agent.py`, lines 339–363):
analyze, execute each step in order, synthesize.  It returns only the
response text. -/
def process_query (b : Backend) (user_query : String) :
    Except PyExc String :=
  let steps := analyze_query user_query
  let steps := executeLoop b steps
  synthesize_results steps user_query

/-- The interaction record handed to `log_interaction`
(`src/level3/full_agent.py`, lines 365–384); timestamp, `llm_type`, and the
file writes are external side effects and are not modelled. -/
structure LoggedInteraction where
  user_question : String
  response : String
  steps : List TaskStep
deriving DecidableEq, Repr

/-- One iteration of the `FullAgent.run` loop on a non-quit, non-empty
input (`src/level3/full_agent.py`, lines 436–443): the response comes from
`process_query`, after which `analyze_query` is called *again* and that
fresh, unexecuted step list is what `log_interaction` receives. -/
def run_iteration (b : Backend) (user_input : String) :
    Except PyExc (String × LoggedInteraction) := do
  let response ← process_query b user_input
  let steps := analyze_query user_input
  pure (response,
    { user_question := user_input, response := response, steps := steps })


/-! ### Helper lemmas -/

/-- `(Char.ofNat (n + 32)).toNat = n + 32` on the uppercase ASCII range. -/
theorem charOfNat_toNat_shift (n : Nat) (h1 : 65 ≤ n) (h2 : n ≤ 90) :
    (Char.ofNat (n + 32)).toNat = n + 32 := by
  interval_cases n <;> decide

/-- ASCII lower-casing is idempotent. -/
theorem asciiLower_idem (c : Char) : asciiLower (asciiLower c) = asciiLower c := by
  unfold asciiLower
  by_cases h : 65 ≤ c.toNat ∧ c.toNat ≤ 90
  · rw [if_pos h, charOfNat_toNat_shift c.toNat h.1 h.2, if_neg (by omega)]
  · rw [if_neg h, if_neg h]

/-- Lower-casing a character list twice is the same as once. -/
theorem mapLower_idem (l : List Char) :
    (l.map asciiLower).map asciiLower = l.map asciiLower := by
  induction l with
  | nil => rfl
  | cons c rest ih => simp [List.map_cons, asciiLower_idem c, ih]

/-- `pyLower` is idempotent. -/
theorem pyLower_idem (s : String) : pyLower (pyLower s) = pyLower s := by
  unfold pyLower
  exact congrArg String.mk (mapLower_idem s.data)

/-- Every step freshly created by `analyze_query` is not yet run: not
completed, no result, no error. -/
theorem analyze_query_fresh (q : String) :
    ∀ s ∈ analyze_query q, s.completed = false ∧ s.result = none ∧
      s.error = none := by
  intro s hs
  simp only [analyze_query] at hs
  split at hs
  · simp only [List.mem_singleton] at hs
    subst hs; exact ⟨rfl, rfl, rfl⟩
  · simp only [List.mem_append] at hs
    rcases hs with (hs | hs) | hs
    · unfold transSteps at hs
      cases hd : detect_translation_request q <;> rw [hd] at hs
      · simp at hs
      · simp only [List.mem_singleton] at hs
        subst hs; exact ⟨rfl, rfl, rfl⟩
    · unfold mathSteps at hs
      simp only [List.mem_map] at hs
      rcases hs with ⟨m, _, rfl⟩; exact ⟨rfl, rfl, rfl⟩
    · unfold knowSteps at hs
      simp only [List.mem_map] at hs
      rcases hs with ⟨m, _, rfl⟩; exact ⟨rfl, rfl, rfl⟩

/-- `analyze_query` never returns the empty list. -/
theorem analyze_query_ne_nil (q : String) : analyze_query q ≠ [] := by
  simp only [analyze_query]
  split
  · simp
  · rename_i h
    intro hnil
    rw [hnil] at h
    simp at h

/-! ### C1 — extraction always yields at least one sub-task; fallback -/

/-- **C1.** For every query string, `analyze_query` returns a non-empty list
of sub-tasks; if the translation, arithmetic, and knowledge-question passes
all produce nothing, it emits exactly one fallback step, handled by the LLM
capability, whose parameter is the entire original query. -/
theorem c1_extract_nonempty_fallback (q : String) :
    analyze_query q ≠ [] ∧
    (detect_translation_request q = none →
     extract_math_operations q = [] →
     extract_knowledge_questions q = [] →
     analyze_query q =
       [{ description := "Process query: " ++ q,
          tool_type := some "llm",
          parameters := { question := some q } }]) := by
  refine ⟨analyze_query_ne_nil q, fun h1 h2 h3 => ?_⟩
  have ht : transSteps q = [] := by unfold transSteps; rw [h1]
  have hm : mathSteps q = [] := by unfold mathSteps; rw [h2]; rfl
  have hk : knowSteps q = [] := by unfold knowSteps; rw [h3]; rfl
  simp only [analyze_query]
  rw [ht, hm, hk]
  rfl

/-- Witness for C1 at the query `"Hello."`, on which all three passes are
empty. -/
theorem c1_witness :
    analyze_query "Hello." =
      [{ description := "Process query: " ++ "Hello.",
         tool_type := some "llm",
         parameters := { question := some "Hello." } }] :=
  (c1_extract_nonempty_fallback "Hello.").2 (by decide) (by decide) (by decide)

/-! ### C2 — strict order and continue-on-error isolation -/

/-- The execution loop maps each position independently: the step stored at
index `i` of the executed trace is `execute_step` of the step at index `i`
of the extracted list, regardless of every other step. -/
theorem executeLoop_getElem (b : Backend) :
    ∀ (steps : List TaskStep) (i : Nat),
      (executeLoop b steps)[i]? = (steps[i]?).map (execute_step b) := by
  intro steps
  induction steps with
  | nil => intro i; simp [executeLoop]
  | cons s rest ih =>
      intro i
      cases i with
      | zero => simp [executeLoop]
      | succ j => simpa [executeLoop] using ih j

/-- **C2.** Steps are executed in extraction order and a failure of one step
never prevents execution of any later step: position `i` of the executed
trace depends only on position `i` of the input.  In particular, in the
2-step trace where the calculator step fails on malformed (missing)
operands, the translator step still executes, its successful outcome is
unaffected, and the multi-step summary reports 1 out of 2. -/
theorem c2_order_isolation :
    (∀ (b : Backend) (steps : List TaskStep) (i : Nat),
      (executeLoop b steps)[i]? = (steps[i]?).map (execute_step b)) ∧
    ((executeLoop Backend.fallbackB
        [{ description := "Calculate bad", tool_type := some "calculator" },
         { description := "Translate 'good morning' to German",
           tool_type := some "translator",
           parameters := { english_text := some "good morning" } }]).map
      TaskStep.completed = [false, true] ∧
     execute_step Backend.fallbackB
       { description := "Translate 'good morning' to German",
         tool_type := some "translator",
         parameters := { english_text := some "good morning" } } =
       { description := "Translate 'good morning' to German",
         tool_type := some "translator",
         parameters := { english_text := some "good morning" },
         result := some (.transl
           { success := true, english_text := "good morning",
             german_translation := some "Guten Morgen",
             confidence := some "high" }),
         completed := true } ∧
     synthesize_results
       (executeLoop Backend.fallbackB
         [{ description := "Calculate bad", tool_type := some "calculator" },
          { description := "Translate 'good morning' to German",
            tool_type := some "translator",
            parameters := { english_text := some "good morning" } }])
       "q" =
       Except.ok "Step-by-step multi-task response:\n\n1. **Calculate bad**\n   Error: 'operation'\n\n2. **Translate 'good morning' to German**\n   Result: 'Guten Morgen'\n\n**Summary**: Successfully completed 1 out of 2 tasks.") :=
  ⟨executeLoop_getElem, by decide, by decide, by decide⟩


/-! ### C3 — calculator domain failures at the step level -/

/-- **C3 counterexample.**  A division-by-zero calculator step is *not*
recorded as a failure: `execute_step` marks it completed even though the
evaluator's dict says `success: False`, and the multi-step summary counts
it — a 2-step trace whose first step divides by zero reports
`2 out of 2`. -/
theorem c3_cex :
    (execute_step Backend.fallbackB
      { description := "Calculate 1 / 0", tool_type := some "calculator",
        parameters := { operation := some "/", operand1 := some ⟨1, 1⟩,
                        operand2 := some ⟨0, 1⟩,
                        expression := some "1 / 0" } }).completed = true ∧
    (calculate "/" ⟨1, 1⟩ ⟨0, 1⟩).success = false ∧
    synthesize_results
      (executeLoop Backend.fallbackB
        [{ description := "Calculate 1 / 0", tool_type := some "calculator",
           parameters := { operation := some "/", operand1 := some ⟨1, 1⟩,
                           operand2 := some ⟨0, 1⟩,
                           expression := some "1 / 0" } },
         { description := "Calculate 2 × 3", tool_type := some "calculator",
           parameters := { operation := some "*", operand1 := some ⟨2, 1⟩,
                           operand2 := some ⟨3, 1⟩,
                           expression := some "2 × 3" } }]) "q" =
      Except.ok "Step-by-step multi-task response:\n\n1. **Calculate 1 / 0**\n\n2. **Calculate 2 × 3**\n   Result: 2.0 * 3.0 = 6.0\n\n**Summary**: Successfully completed 2 out of 2 tasks." := by
  refine ⟨by decide, by decide, by decide⟩

/-- **C3 amended.**  When the Step Executor runs a calculator sub-task and
the evaluator reports a domain failure (division by zero or an unsupported
operator), the step is nevertheless marked *completed* — the failure is
recorded only inside the stored result dict (`success: False`), so the
step still counts towards the multi-step summary's completed count (the
multi-step rendering merely omits its result line). -/
theorem c3_calc_failure_still_completed :
    (∀ (bk : Backend) (desc op expr : String) (x y : PyFloat),
      execute_step bk
        { description := desc, tool_type := some "calculator",
          parameters := { operation := some op, operand1 := some x,
                          operand2 := some y, expression := some expr } } =
        { description := desc, tool_type := some "calculator",
          parameters := { operation := some op, operand1 := some x,
                          operand2 := some y, expression := some expr },
          result := some (.calc (calculate op x y)), completed := true }) ∧
    (∀ (x y : PyFloat), pyIsZero y = true →
      (calculate "/" x y).success = false) ∧
    (∀ (op : String) (x y : PyFloat),
      op ≠ "+" → op ≠ "-" → op ≠ "*" → op ≠ "/" →
      (calculate op x y).success = false) := by
  refine ⟨fun bk desc op expr x y => rfl, fun x y hz => ?_, ?_⟩
  · simp only [calculate, calcTry, reduceIte, hz]
    rfl
  · intro op x y h1 h2 h3 h4
    simp only [calculate, calcTry, if_neg h1, if_neg h2, if_neg h3, if_neg h4]

/-- Witness for C3 at the division-by-zero step `1 / 0`. -/
theorem c3_witness :
    (calculate "/" ⟨6, 1⟩ ⟨0, 1⟩).success = false ∧
    execute_step Backend.fallbackB
      { description := "Calculate 6 / 0", tool_type := some "calculator",
        parameters := { operation := some "/", operand1 := some ⟨6, 1⟩,
                        operand2 := some ⟨0, 1⟩,
                        expression := some "6 / 0" } } =
      { description := "Calculate 6 / 0", tool_type := some "calculator",
        parameters := { operation := some "/", operand1 := some ⟨6, 1⟩,
                        operand2 := some ⟨0, 1⟩,
                        expression := some "6 / 0" },
        result := some (.calc (calculate "/" ⟨6, 1⟩ ⟨0, 1⟩)),
        completed := true } :=
  ⟨c3_calc_failure_still_completed.2.1 ⟨6, 1⟩ ⟨0, 1⟩ (by decide),
   c3_calc_failure_still_completed.1 Backend.fallbackB "Calculate 6 / 0" "/"
     "6 / 0" ⟨6, 1⟩ ⟨0, 1⟩⟩

/-! ### C4 — LLM collaborator errors at the step level -/

/-- **C4 counterexample.**  An auth/transport error raised inside the
OpenAI call does *not* make the step a failure: the wrapper catches it and
returns the error text as the response string, and the step is marked
completed with no error recorded. -/
theorem c4_cex :
    execute_step
      (Backend.openaiB fun _ => Except.error (PyExc.other "401 Unauthorized"))
      { description := "Answer: why", tool_type := some "llm",
        parameters := { question := some "why" } } =
      { description := "Answer: why", tool_type := some "llm",
        parameters := { question := some "why" },
        result := some (.llm "Error calling OpenAI API: 401 Unauthorized"),
        completed := true } := by
  decide

/-- **C4 amended.**  For a knowledge (`llm`) sub-task, an exception raised
by the collaborator call is caught *inside* `call_openai`/`call_gemini`,
which return `"Error calling ... API: <message>"` as the response string;
the step is then marked completed (a success) with that text as its
response.  Only an exception outside those wrappers — e.g. the missing
`question` parameter — yields a non-completed step carrying the error
message. -/
theorem c4_llm_error_wrapped_as_response :
    (∀ (call : String → Except PyExc String) (desc q : String),
      execute_step (Backend.openaiB call)
        { description := desc, tool_type := some "llm",
          parameters := { question := some q } } =
        { description := desc, tool_type := some "llm",
          parameters := { question := some q },
          result := some (.llm (call_openai call (create_prompt q))),
          completed := true }) ∧
    (∀ (call : String → Except PyExc String) (prompt : String) (e : PyExc),
      call prompt = Except.error e →
      call_openai call prompt = "Error calling OpenAI API: " ++ pyStrMsg e) ∧
    (∀ (call : String → Except PyExc String) (prompt : String) (e : PyExc),
      call prompt = Except.error e →
      call_gemini call prompt = "Error calling Gemini API: " ++ pyStrMsg e) ∧
    (∀ (bk : Backend) (desc : String),
      execute_step bk { description := desc, tool_type := some "llm" } =
        { description := desc, tool_type := some "llm",
          completed := false, error := some "'question'" }) := by
  refine ⟨fun call desc q => rfl, fun call prompt e h => ?_,
    fun call prompt e h => ?_, fun bk desc => ?_⟩
  · simp only [call_openai, h]
  · simp only [call_gemini, h]
  · cases bk <;> rfl

/-- Witness for C4: a concrete failing collaborator call. -/
theorem c4_witness :
    call_openai (fun _ => Except.error (PyExc.other "connection refused"))
      (create_prompt "why") =
      "Error calling OpenAI API: " ++ pyStrMsg (PyExc.other "connection refused") :=
  c4_llm_error_wrapped_as_response.2.1
    (fun _ => Except.error (PyExc.other "connection refused"))
    (create_prompt "why") (PyExc.other "connection refused") rfl

/-! ### C5 — translator outcomes -/

/-- **C5 counterexample.**  `"xyz"` is a total miss (its single word is not
in the dictionary), yet `translate` returns *Success* with confidence
`partial` and the word bracket-marked — not a Failure. -/
theorem c5_cex :
    pySplit (pyStrip (pyLower "xyz")) = ["xyz"] ∧
    dictLookup "xyz" = none ∧
    translate "xyz" =
      { success := true, english_text := "xyz",
        german_translation := some "[xyz]", confidence := some "partial",
        note := some "Some words may not be accurately translated" } := by
  decide

/-- **C5 amended.**  `translate` returns Success with confidence `high` on
a direct dictionary hit; otherwise, whenever the phrase contains at least
one whitespace-separated word, it returns Success with confidence
`partial`, substituting word by word with unknown words bracket-marked —
*even when no word matches at all*.  It returns Failure exactly when the
phrase has no words (empty or whitespace-only). -/
theorem c5_translate_behaviour (s : String) :
    (∀ g, dictLookup (pyStrip (pyLower s)) = some g →
      translate s =
        { success := true, english_text := s,
          german_translation := some g, confidence := some "high" }) ∧
    (dictLookup (pyStrip (pyLower s)) = none →
      pySplit (pyStrip (pyLower s)) ≠ [] →
      translate s =
        { success := true, english_text := s,
          german_translation := some (String.intercalate " "
            ((pySplit (pyStrip (pyLower s))).map (fun word =>
              match dictLookup word with
              | some g => g
              | none => "[" ++ word ++ "]"))),
          confidence := some "partial",
          note := some "Some words may not be accurately translated" }) ∧
    ((translate s).success = false ↔
      dictLookup (pyStrip (pyLower s)) = none ∧
      pySplit (pyStrip (pyLower s)) = []) := by
  refine ⟨fun g hg => ?_, fun hnone hsplit => ?_, ?_⟩
  · simp only [translate, hg]
  · obtain ⟨w, ws, hsp⟩ := List.exists_cons_of_ne_nil hsplit
    simp [translate, hnone, hsp]
  · simp only [translate]
    cases hd : dictLookup (pyStrip (pyLower s)) with
    | some g => simp [hd]
    | none =>
      cases hsp : pySplit (pyStrip (pyLower s)) with
      | nil => simp
      | cons w ws => simp

/-- Witness for C5 at the phrase `"good morning"` (direct hit) — applies
the amended theorem with its hypothesis discharged. -/
theorem c5_witness :
    translate "good morning" =
      { success := true, english_text := "good morning",
        german_translation := some "Guten Morgen",
        confidence := some "high" } :=
  (c5_translate_behaviour "good morning").1 "Guten Morgen" (by decide)

/-! ### C6 — captured parameters and casing -/

/-- **C6 counterexample.**  The quoted phrase of a translation request is
captured from the lower-cased text: for
`"Translate 'Good Morning' into German"` the captured parameter is
`"good morning"`, not the verbatim `"Good Morning"`. -/
theorem c6_cex :
    (detect_translation_request "Translate 'Good Morning' into German").map
      TranslationRequest.english_text = some "good morning" ∧
    ("good morning" : String) ≠ "Good Morning" := by
  decide

/-- **C6 amended.**  Pattern matching *and* parameter capture both run over
the lower-cased text: the values captured by the translation, arithmetic,
and knowledge passes on any query equal those captured on the lower-cased
query (so original casing is not preserved in captured parameters; only
the fallback sub-task's parameter keeps the query verbatim). -/
theorem c6_captures_lowercased (q : String) :
    (detect_translation_request q).map TranslationRequest.english_text =
      (detect_translation_request (pyLower q)).map
        TranslationRequest.english_text ∧
    extract_math_operations q = extract_math_operations (pyLower q) ∧
    extract_knowledge_questions q = extract_knowledge_questions (pyLower q) := by
  refine ⟨?_, ?_, ?_⟩
  · simp only [detect_translation_request, pyLower_idem]
    cases detectTransAux (pyLower q) translationPatterns <;> rfl
  · simp only [extract_math_operations, pyLower_idem]
  · simp only [extract_knowledge_questions, pyLower_idem]


/-! ### C7 — the two-step translate-and-multiply query, end to end -/

/-- **C7 counterexample.**  For the query
`"Translate 'Good Morning' into German and then multiply 5 and 6."` the
translator sub-task's captured phrase is the lower-cased `"good morning"`,
not `"Good Morning"`, and the rendered response contains
`5.0 * 6.0 = 30.0`, not `5 × 6 = 30.0` (the `×` form appears only in the
step description). -/
theorem c7_cex :
    ((analyze_query
        "Translate 'Good Morning' into German and then multiply 5 and 6.").head?.map
      (fun s => s.parameters.english_text)) = some (some "good morning") ∧
    ("good morning" : String) ≠ "Good Morning" ∧
    (process_query Backend.fallbackB
        "Translate 'Good Morning' into German and then multiply 5 and 6.").map
      (fun t => pyContains t "5 × 6 = 30.0") = Except.ok false ∧
    (process_query Backend.fallbackB
        "Translate 'Good Morning' into German and then multiply 5 and 6.").map
      (fun t => pyContains t "5.0 * 6.0 = 30.0") = Except.ok true := by
  refine ⟨by decide, by decide, by decide, by decide⟩

/-- **C7 amended.**  For the query
`"Translate 'Good Morning' into German and then multiply 5 and 6."`:
extraction yields exactly 2 sub-tasks in order — translator with the
lower-cased phrase `"good morning"`, then calculator with operator `*` and
operands 5 and 6 (description `Calculate 5 × 6`); execution yields
translator success `Guten Morgen` and calculator success with expression
`5.0 * 6.0 = 30.0`; synthesis uses the multi-step format with summary
`2 out of 2`. -/
theorem c7_two_step_query :
    analyze_query
      "Translate 'Good Morning' into German and then multiply 5 and 6." =
      [{ description := "Translate 'good morning' to German",
         tool_type := some "translator",
         parameters := { english_text := some "good morning" } },
       { description := "Calculate 5 × 6",
         tool_type := some "calculator",
         parameters := { operation := some "*", operand1 := some ⟨5, 1⟩,
                         operand2 := some ⟨6, 1⟩,
                         expression := some "5 × 6" } }] ∧
    executeLoop Backend.fallbackB
      (analyze_query
        "Translate 'Good Morning' into German and then multiply 5 and 6.") =
      [{ description := "Translate 'good morning' to German",
         tool_type := some "translator",
         parameters := { english_text := some "good morning" },
         result := some (.transl
           { success := true, english_text := "good morning",
             german_translation := some "Guten Morgen",
             confidence := some "high" }),
         completed := true },
       { description := "Calculate 5 × 6",
         tool_type := some "calculator",
         parameters := { operation := some "*", operand1 := some ⟨5, 1⟩,
                         operand2 := some ⟨6, 1⟩,
                         expression := some "5 × 6" },
         result := some (.calc
           { success := true, result := some ⟨30, 1⟩,
             operation := some "multiplication",
             operand1 := ⟨5, 1⟩, operand2 := ⟨6, 1⟩,
             expression := some "5.0 * 6.0 = 30.0" }),
         completed := true }] ∧
    process_query Backend.fallbackB
      "Translate 'Good Morning' into German and then multiply 5 and 6." =
      Except.ok "Step-by-step multi-task response:\n\n1. **Translate 'good morning' to German**\n   Result: 'Guten Morgen'\n\n2. **Calculate 5 × 6**\n   Result: 5.0 * 6.0 = 30.0\n\n**Summary**: Successfully completed 2 out of 2 tasks." := by
  refine ⟨by decide, by decide, by decide⟩

/-! ### C8 — the Earth–Mars knowledge query, end to end -/

/-- **C8 counterexample.**  For
`"What is the distance between Earth and Mars?"` extraction yields *two*
knowledge sub-tasks, not exactly one: the `what is` pattern captures
`distance between earth` and the `distance between` pattern captures
`earth`. -/
theorem c8_cex :
    (analyze_query "What is the distance between Earth and Mars?").length = 2 ∧
    (analyze_query "What is the distance between Earth and Mars?").length ≠ 1 := by
  refine ⟨by decide, by decide⟩

/-- **C8 amended.**  For
`"What is the distance between Earth and Mars?"`, extraction yields exactly
2 knowledge sub-tasks (`distance between earth` from the `what is` pattern
and `earth` from the `distance between` pattern); with no live backend both
execute successfully, but with the *generic* offline fallback text — the
configured Earth–Mars answer is not triggered, because neither captured
fragment contains `mars` (a fragment that does contain all three keywords
would trigger it). -/
theorem c8_distance_query :
    analyze_query "What is the distance between Earth and Mars?" =
      [{ description := "Answer: distance between earth",
         tool_type := some "llm",
         parameters := { question := some "distance between earth" } },
       { description := "Answer: earth",
         tool_type := some "llm",
         parameters := { question := some "earth" } }] ∧
    executeLoop Backend.fallbackB
      (analyze_query "What is the distance between Earth and Mars?") =
      [{ description := "Answer: distance between earth",
         tool_type := some "llm",
         parameters := { question := some "distance between earth" },
         result := some (.llm (fallback_response "distance between earth")),
         completed := true },
       { description := "Answer: earth",
         tool_type := some "llm",
         parameters := { question := some "earth" },
         result := some (.llm (fallback_response "earth")),
         completed := true }] ∧
    pyContains (fallback_response "distance between earth")
      "225 million km" = false ∧
    pyContains (fallback_response "distance between earth")
      "In fallback mode, I have limited knowledge" = true ∧
    pyContains (fallback_response "distance between earth and mars")
      "225 million km" = true := by
  refine ⟨by decide, by decide, by decide, by decide, by decide⟩

/-! ### C9 — what the run loop returns and what it logs -/

/-- Every step produced by `analyze_query` executes to a completed step:
each extracted step carries exactly the parameters its tool reads. -/
theorem analyze_executes (q : String) (b : Backend) :
    ∀ s ∈ analyze_query q, (execute_step b s).completed = true := by
  intro s hs
  simp only [analyze_query] at hs
  split at hs
  · simp only [List.mem_singleton] at hs
    subst hs
    cases b <;> rfl
  · simp only [List.mem_append] at hs
    rcases hs with (hs | hs) | hs
    · unfold transSteps at hs
      cases hd : detect_translation_request q <;> rw [hd] at hs
      · simp at hs
      · simp only [List.mem_singleton] at hs
        subst hs
        rfl
    · unfold mathSteps at hs
      simp only [List.mem_map] at hs
      rcases hs with ⟨m, _, rfl⟩
      rfl
    · unfold knowSteps at hs
      simp only [List.mem_map] at hs
      rcases hs with ⟨qq, _, rfl⟩
      cases b <;> rfl

/-- **C9 counterexample.**  For the query `"Add 2 and 3"`, the step list
handed to the logging collaborator consists of steps that were never
executed (`completed = false`), while the trace actually executed by
`process_query` has its step completed — the logged list is a separately
produced list, not the executed trace. -/
theorem c9_cex :
    (run_iteration Backend.fallbackB "Add 2 and 3").map
      (fun p => p.2.steps.map TaskStep.completed) = Except.ok [false] ∧
    (executeLoop Backend.fallbackB (analyze_query "Add 2 and 3")).map
      TaskStep.completed = [true] ∧
    (run_iteration Backend.fallbackB "Add 2 and 3").map (fun p => p.2.steps) ≠
      Except.ok (executeLoop Backend.fallbackB (analyze_query "Add 2 and 3")) := by
  refine ⟨by decide, by decide, by decide⟩

/-- **C9 amended.**  `process_query` returns only the response text; the
step list handed to the logging collaborator by the run loop is a *fresh*
re-extraction (`analyze_query` run a second time), every entry of which is
unexecuted (`completed = false`, no result) — it is never the executed
trace, which differs from it at every query (its first step alone is
changed by execution). -/
theorem c9_logged_trace_not_executed (b : Backend) (q : String) (r : String)
    (log : LoggedInteraction)
    (h : run_iteration b q = Except.ok (r, log)) :
    log.steps = analyze_query q ∧
    (∀ s ∈ log.steps, s.completed = false ∧ s.result = none) ∧
    log.steps ≠ executeLoop b (analyze_query q) := by
  unfold run_iteration at h
  cases hp : process_query b q with
  | error e =>
      rw [hp] at h
      simp [Bind.bind, Except.bind] at h
  | ok resp =>
      rw [hp] at h
      simp only [Bind.bind, Except.bind, pure, Except.pure, Except.ok.injEq,
        Prod.mk.injEq] at h
      obtain ⟨-, hlog⟩ := h
      subst hlog
      refine ⟨rfl, ?_, ?_⟩
      · intro s hs
        have hf := analyze_query_fresh q s hs
        exact ⟨hf.1, hf.2.1⟩
      · intro heq
        obtain ⟨s0, rest, hsplit⟩ :=
          List.exists_cons_of_ne_nil (analyze_query_ne_nil q)
        have hmem : s0 ∈ analyze_query q := by
          rw [hsplit]; exact List.mem_cons_self _ _
        have hfresh := analyze_query_fresh q s0 hmem
        have hexec := analyze_executes q b s0 hmem
        simp only at heq
        rw [hsplit] at heq
        simp only [executeLoop] at heq
        injection heq with h0 _
        rw [← h0] at hexec
        rw [hfresh.1] at hexec
        exact Bool.noConfusion hexec

/-- Witness for C9 at the query `"Add 2 and 3"`. -/
theorem c9_witness :
    ({ user_question := "Add 2 and 3",
       response := "Step-by-step response:\n\n1. **Question Analysis**: You asked for a mathematical calculation\n2. **Tool Usage**: I used the calculator tool\n3. **Calculation**: 2.0 + 3.0 = 5.0\n4. **Result**: The answer is 5.0",
       steps := [{ description := "Calculate 2 + 3",
                   tool_type := some "calculator",
                   parameters := { operation := some "+",
                                   operand1 := some ⟨2, 1⟩,
                                   operand2 := some ⟨3, 1⟩,
                                   expression := some "2 + 3" } }] } :
        LoggedInteraction).steps ≠
      executeLoop Backend.fallbackB (analyze_query "Add 2 and 3") :=
  (c9_logged_trace_not_executed Backend.fallbackB "Add 2 and 3"
    "Step-by-step response:\n\n1. **Question Analysis**: You asked for a mathematical calculation\n2. **Tool Usage**: I used the calculator tool\n3. **Calculation**: 2.0 + 3.0 = 5.0\n4. **Result**: The answer is 5.0"
    { user_question := "Add 2 and 3",
      response := "Step-by-step response:\n\n1. **Question Analysis**: You asked for a mathematical calculation\n2. **Tool Usage**: I used the calculator tool\n3. **Calculation**: 2.0 + 3.0 = 5.0\n4. **Result**: The answer is 5.0",
      steps := [{ description := "Calculate 2 + 3",
                  tool_type := some "calculator",
                  parameters := { operation := some "+",
                                  operand1 := some ⟨2, 1⟩,
                                  operand2 := some ⟨3, 1⟩,
                                  expression := some "2 + 3" } }] }
    (by decide)).2.2

/-! ### C10 — `calculate` is total; the division-by-zero branch -/

/-- **C10.**  `CalculatorTool.calculate` always returns a result dict and
never raises (a non-success dict always carries an error message); the
dedicated division-by-zero reply `Division by zero is not allowed` is
unreachable, because that early-return branch reads the local
`operation_name` before any assignment; dividing by zero instead raises
`UnboundLocalError` inside the `try` body, and the generic handler reports
`success: False` with that error's message. -/
theorem c10_calculate_total_divzero (op : String) (x y : PyFloat) :
    ((calculate op x y).success = false →
      (calculate op x y).error.isSome = true) ∧
    (calculate "/" x y).error ≠ some "Division by zero is not allowed" ∧
    (pyIsZero y = true →
      calcTry "/" x y = Except.error (PyExc.unboundLocal "operation_name") ∧
      calculate "/" x y =
        { success := false, operation := some "/", operand1 := x,
          operand2 := y,
          error := some "cannot access local variable 'operation_name' where it is not associated with a value" }) := by
  have hdiv : ∀ z : PyFloat, pyIsZero z = true →
      calcTry "/" x z = Except.error (PyExc.unboundLocal "operation_name") := by
    intro z hz
    simp [calcTry, hz, readLocal, Bind.bind, Except.bind]
  refine ⟨?_, ?_, fun hz => ?_⟩
  · intro hs
    by_cases h1 : op = "+"
    · subst h1; simp [calculate, calcTry, calcSuccess] at hs
    by_cases h2 : op = "-"
    · subst h2; simp [calculate, calcTry, calcSuccess] at hs
    by_cases h3 : op = "*"
    · subst h3; simp [calculate, calcTry, calcSuccess] at hs
    by_cases h4 : op = "/"
    · subst h4
      by_cases hz : pyIsZero y = true
      · simp [calculate, hdiv y hz, pyStrMsg]
      · simp [calculate, calcTry, calcSuccess, hz] at hs
    · simp [calculate, calcTry, if_neg h1, if_neg h2, if_neg h3, if_neg h4]
  · by_cases hz : pyIsZero y = true
    · simp [calculate, hdiv y hz, pyStrMsg]
    · simp [calculate, calcTry, calcSuccess, hz]
  · refine ⟨hdiv y hz, ?_⟩
    simp [calculate, hdiv y hz, pyStrMsg]

/-- Witness for C10 at `6.0 / 0.0`. -/
theorem c10_witness :
    calcTry "/" ⟨6, 1⟩ ⟨0, 1⟩ =
      Except.error (PyExc.unboundLocal "operation_name") ∧
    calculate "/" ⟨6, 1⟩ ⟨0, 1⟩ =
      { success := false, operation := some "/", operand1 := ⟨6, 1⟩,
        operand2 := ⟨0, 1⟩,
        error := some "cannot access local variable 'operation_name' where it is not associated with a value" } :=
  (c10_calculate_total_divzero "/" ⟨6, 1⟩ ⟨0, 1⟩).2.2 (by decide)

end PyLLM
